import Mathlib

/-!
Shallow embedding of the fridata frontend core:
the workflow controller hook (src/frontend/src/hooks/useDataTransform.ts)
and the positional diff logic of the DataDiffViewer component.
JS strings stay String, nullable values become Option, machine state is a
structure passed explicitly, and each async handler is split into its
synchronous prefix (before the await) and its continuation (after the
await), because the continuation runs against whatever state is current
when the response arrives.
-/

namespace Fridata

/-- Loosely typed scalar stored in a row cell (string, number, boolean or
null). A missing key is represented by Option.none at the lookup level,
matching JS undefined. Numbers are modelled as integers, which is enough
for the textual comparisons the code performs. -/
inductive Value where
  | str (s : String)
  | num (n : Int)
  | boolean (b : Bool)
  | vnull
deriving DecidableEq, Repr

/-- JS String(v) applied to a defined value: String(null) is "null",
String(true) is "true", numbers print decimally. -/
def Value.jsString : Value → String
  | .str s => s
  | .num n => toString n
  | .boolean b => if b then "true" else "false"
  | .vnull => "null"

/-- A row is a finite mapping from column name to scalar, kept as an
association list; keys need not cover every profile column. -/
abbrev Row := List (String × Value)

/-- Member access row[c]: the first binding for c, or none when the key is
absent (JS undefined). -/
def rowGet (r : Row) (c : String) : Option Value :=
  (r.find? (fun p => p.1 == c)).map Prod.snd

/-- JS String(x) where x may be undefined: String(undefined) is the
literal string "undefined". Used by the diff comparison at
src/unnamed/part_002 line 82, which does not null-coalesce first. -/
def jsStr : Option Value → String
  | none => "undefined"
  | some v => v.jsString

/-- JS String(x ?? ..): null and undefined coalesce to the empty string
before stringification. Used by the cell rendering at part_002 lines 54
and 89, but not by the changed-cell comparison. -/
def jsStrCoalesce : Option Value → String
  | none => ""
  | some .vnull => ""
  | some v => v.jsString

/-- Classification of one diff cell. -/
inductive CellStatus where
  | unchanged
  | changed
  | removedInTransformed
deriving DecidableEq, Repr

/-- Value of the cell at row index i, column c, or none when the row or
the key is missing: originalData[i] then originalData[i][c] in the code. -/
def valueAt (rows : List Row) (i : Nat) (c : String) : Option Value :=
  rows[i]?.bind (fun r => rowGet r c)

/-- Per-cell classification of the DataDiffViewer when a transformed
(cleaned) preview is present, read off src/unnamed/part_002: the left
pane strikes a cell through exactly when cleanedData[i] is undefined
(line 52), and the right pane marks a cell changed exactly when
originalData[i] exists and String(originalVal) differs from
String(newVal) (line 82), with no null coalescing in that comparison. -/
def cellStatus (original transformed : List Row) (i : Nat) (c : String) : CellStatus :=
  match transformed[i]? with
  | none => CellStatus.removedInTransformed
  | some trow =>
    match original[i]? with
    | none => CellStatus.unchanged
    | some orow =>
      if jsStr (rowGet orow c) ≠ jsStr (rowGet trow c) then CellStatus.changed
      else CellStatus.unchanged

/-- The ColumnProfile interface of lib/api (src/unnamed/part_000):
name, dtype and summary statistics; only name and dtype are read by the
components. The loosely typed sample_values entries become Value. -/
structure ColumnProfile where
  name : String
  dtype : String
  null_count : Nat
  unique_count : Nat
  sample_values : List Value
deriving DecidableEq, Repr

/-- The DatasetProfile interface of lib/api (src/unnamed/part_000): the
upload response carrying the job id, file metadata, column profiles and
a bounded row preview, with its snake_case field names. -/
structure DatasetProfile where
  job_id : String
  filename : String
  total_rows : Nat
  columns : List ColumnProfile
  preview : List Row
deriving DecidableEq, Repr

/-- The six-string status union of the ExecutionResult interface in
lib/api (src/unnamed/part_000). -/
inductive ExecStatus where
  | pending
  | analyzing
  | ready
  | processing
  | completed
  | failed
deriving DecidableEq, Repr

/-- The ExecutionResult interface of lib/api (src/unnamed/part_000):
the execute response with status, optional download url, metrics,
optional error and optional transformed preview. The loosely typed
metrics record becomes a string association list; none of the proofs
inspect it. -/
structure ExecutionResult where
  job_id : String
  status : ExecStatus
  download_url : Option String
  metrics : List (String × String)
  error : Option String
  preview : Option (List Row)
deriving DecidableEq, Repr

/-- The TransformStep interface of lib/api (src/unnamed/part_000): one
step of a proposed plan; the loosely typed parameters record becomes a
string association list, which no proof inspects. -/
structure TransformStep where
  operation : String
  parameters : List (String × String)
  target_column : Option String
  explanation : Option String
deriving DecidableEq, Repr

/-- The PlanResponse interface of lib/api (src/unnamed/part_000): the
generatePlan response with job id, ordered steps and impact estimate. -/
structure PlanResponse where
  job_id : String
  steps : List TransformStep
  estimated_impact : String
deriving DecidableEq, Repr

/-- Transport-level failure of a gateway call; detail models the
err.response.data.detail chain read by the catch blocks, none when any
link of that optional chain is absent. -/
structure ApiError where
  detail : Option String
deriving DecidableEq, Repr

/-- The observable state of the useDataTransform hook: one field per
useState cell, in source order. -/
structure ControllerState where
  jobId : Option String
  datasetProfile : Option DatasetProfile
  proposedSteps : List TransformStep
  isProcessing : Bool
  error : Option String
  uploadProgress : Nat
  executionResult : Option ExecutionResult
  currentData : List Row
deriving DecidableEq, Repr

/-- Initial state of every useState cell. -/
def initialState : ControllerState :=
  { jobId := none
    datasetProfile := none
    proposedSteps := []
    isProcessing := false
    error := none
    uploadProgress := 0
    executionResult := none
    currentData := [] }

/-- JS truthiness of a nullable string: null, undefined and the empty
string are falsy. -/
def jsTruthyStr : Option String → Bool
  | none => false
  | some s => !(s == "")

/-- JS a-or-else-b on a nullable string: the fallback is used when a is
absent or empty, matching the || fallbacks in the catch blocks. -/
def jsOr (a : Option String) (b : String) : String :=
  match a with
  | some s => if s = "" then b else s
  | none => b

/-- Synchronous prefix of handleUpload, before the await:
setIsProcessing(true), setError(null), setUploadProgress(0). -/
def handleUploadStart (s : ControllerState) : ControllerState :=
  { s with isProcessing := true, error := none, uploadProgress := 0 }

/-- Progress callback passed to uploadFile: each byte-level event stores
the reported percentage. -/
def onUploadProgress (s : ControllerState) (p : Nat) : ControllerState :=
  { s with uploadProgress := p }

/-- Continuation of handleUpload, run against the state current when the
uploadFile promise settles: on success store job id, profile and working
preview; on failure surface the server detail or the generic message;
either way clear isProcessing (the finally block). -/
def handleUploadResolve (s : ControllerState)
    (resp : Except ApiError DatasetProfile) : ControllerState :=
  match resp with
  | .ok profile =>
      { s with jobId := some profile.job_id
               datasetProfile := some profile
               currentData := profile.preview
               isProcessing := false }
  | .error e =>
      { s with error := some (jsOr e.detail "Upload failed")
               isProcessing := false }

/-- Whole handleUpload call when no interleaving happens between request
and response: prefix then continuation. There is no guard: upload is
accepted in every state. -/
def handleUpload (s : ControllerState)
    (resp : Except ApiError DatasetProfile) : ControllerState :=
  handleUploadResolve (handleUploadStart s) resp

/-- Job id that handleTransformRequest passes to generatePlan, or none
when the initial falsy-jobId guard returns without calling the gateway. -/
def planCallArg (s : ControllerState) : Option String :=
  if jsTruthyStr s.jobId then s.jobId else none

/-- Continuation of handleTransformRequest: on success replace the
proposed steps with the returned plan steps; on failure surface the
server detail or "Planning failed". The previously proposed steps are
not touched on the failure path. -/
def handleTransformRequestResolve (s : ControllerState)
    (resp : Except ApiError PlanResponse) : ControllerState :=
  match resp with
  | .ok plan =>
      { s with proposedSteps := plan.steps, isProcessing := false }
  | .error e =>
      { s with error := some (jsOr e.detail "Planning failed")
               isProcessing := false }

/-- Whole handleTransformRequest call without interleaving: an immediate
return when jobId is falsy, otherwise the synchronous prefix
(setIsProcessing, setError(null)) followed by the continuation. -/
def handleTransformRequest (s : ControllerState)
    (resp : Except ApiError PlanResponse) : ControllerState :=
  if jsTruthyStr s.jobId then
    handleTransformRequestResolve { s with isProcessing := true, error := none } resp
  else s

/-- Job id that handleExecute passes to executePlan, or none when the
initial falsy-jobId guard returns without calling the gateway. The guard
reads only jobId; proposedSteps is not consulted. -/
def executeCallArg (s : ControllerState) : Option String :=
  if jsTruthyStr s.jobId then s.jobId else none

/-- Continuation of handleExecute: store the result, and surface
result.error (or the generic message) exactly when the result status is
failed; a transport error surfaces the server detail or the generic
message. -/
def handleExecuteResolve (s : ControllerState)
    (resp : Except ApiError ExecutionResult) : ControllerState :=
  match resp with
  | .ok result =>
      let s1 := { s with executionResult := some result }
      let s2 :=
        if result.status = ExecStatus.failed then
          { s1 with error := some (jsOr result.error "Execution failed") }
        else s1
      { s2 with isProcessing := false }
  | .error e =>
      { s with error := some (jsOr e.detail "Execution failed")
               isProcessing := false }

/-- Whole handleExecute call without interleaving: an immediate return
when jobId is falsy, otherwise prefix then continuation. -/
def handleExecute (s : ControllerState)
    (resp : Except ApiError ExecutionResult) : ControllerState :=
  if jsTruthyStr s.jobId then
    handleExecuteResolve { s with isProcessing := true, error := none } resp
  else s

/-- The reset handler: clears every cell except isProcessing, which the
source does not touch. -/
def reset (s : ControllerState) : ControllerState :=
  { s with jobId := none
           datasetProfile := none
           proposedSteps := []
           executionResult := none
           currentData := []
           error := none
           uploadProgress := 0 }

/-- Controller state right after a mid-flight reset: no job, spinner
still on because reset leaves isProcessing alone. -/
def c1StaleState : ControllerState :=
  { initialState with isProcessing := true }

/-- Late upload response for a job the controller no longer tracks. -/
def c1StaleProfile : DatasetProfile :=
  { job_id := "job-1", filename := "a.csv", total_rows := 3
    columns := [], preview := [] }

/-- Late plan response for a job the controller no longer tracks. -/
def c1StalePlan : PlanResponse :=
  { job_id := "job-1"
    steps := [{ operation := "drop_nulls", parameters := []
                target_column := none, explanation := none }]
    estimated_impact := "low" }

/-- Late execute response for a job the controller no longer tracks. -/
def c1StaleResult : ExecutionResult :=
  { job_id := "job-1", status := ExecStatus.completed, download_url := none
    metrics := [], error := none, preview := none }

/-- Controller with an active job and no other state. -/
def c2State : ControllerState :=
  { initialState with jobId := some "job-1" }

/-- Execute result in an intermediate status whose error field is set. -/
def c2Result : ExecutionResult :=
  { job_id := "job-1", status := ExecStatus.pending, download_url := none
    metrics := [], error := some "boom", preview := none }

/-- A previously proposed step. -/
def c3Step : TransformStep :=
  { operation := "drop_nulls", parameters := [("column", "age")]
    target_column := some "age", explanation := none }

/-- Controller with an active job and a previously proposed plan. -/
def c3State : ControllerState :=
  { initialState with jobId := some "job-1", proposedSteps := [c3Step] }

/-- Transport failure with no server detail. -/
def c3Err : ApiError := { detail := none }

/-- Controller with an active job and an empty proposed plan. -/
def c4State : ControllerState :=
  { initialState with jobId := some "job-1" }

/-- Execute result returned for the plan-less execute call. -/
def c4Result : ExecutionResult :=
  { job_id := "job-1", status := ExecStatus.completed, download_url := none
    metrics := [], error := none, preview := none }

/-- Original preview whose single row holds an explicit null in column a. -/
def c5Original : List Row := [[("a", Value.vnull)]]

/-- Transformed preview whose single row lacks column a entirely. -/
def c5Transformed : List Row := [([] : Row)]

/-- Controller still holding the job id of an earlier upload. -/
def c8State : ControllerState :=
  { initialState with jobId := some "job-old" }

/-- Upload failure whose server detail is present but empty. -/
def c8Err : ApiError := { detail := some "" }

/-- Controller holding the full artifacts of a finished earlier job. -/
def c10State : ControllerState :=
  { initialState with
      jobId := some "job-old"
      proposedSteps := [{ operation := "fill_na", parameters := []
                          target_column := none, explanation := none }]
      executionResult := some { job_id := "job-old"
                                status := ExecStatus.completed
                                download_url := some "u", metrics := []
                                error := none, preview := none } }

/-- Fresh upload response replacing the earlier job. -/
def c10Profile : DatasetProfile :=
  { job_id := "job-new", filename := "b.csv", total_rows := 2
    columns := [], preview := [[("a", Value.num 1)]] }

/-- C1: the claim says a gateway response whose job id differs from the
controller current jobId must leave every observable field unchanged.
The hook has no such guard: each continuation applies its response to
whatever state is current when the promise settles. At a concrete
post-reset state (jobId none, so it differs from every response job id)
a late upload, plan or execute response still mutates jobId,
proposedSteps or executionResult respectively. -/
theorem c1_stale_responses_are_applied :
    c1StaleState.jobId ≠ some c1StaleProfile.job_id ∧
    (handleUploadResolve c1StaleState (Except.ok c1StaleProfile)).jobId ≠
      c1StaleState.jobId ∧
    c1StaleState.jobId ≠ some c1StalePlan.job_id ∧
    (handleTransformRequestResolve c1StaleState
        (Except.ok c1StalePlan)).proposedSteps ≠ c1StaleState.proposedSteps ∧
    c1StaleState.jobId ≠ some c1StaleResult.job_id ∧
    (handleExecuteResolve c1StaleState
        (Except.ok c1StaleResult)).executionResult ≠
      c1StaleState.executionResult := by
  decide

/-- C2 counterexample: an execute result in status pending whose error
field is set is stored, yet the controller surfaces no error, refuting
the claim that every non-completed status ends Failed with the result
error surfaced. -/
theorem c2_counterexample_pending_status_no_error :
    c2Result.status ≠ ExecStatus.completed ∧
    c2Result.error = some "boom" ∧
    (handleExecute c2State (Except.ok c2Result)).executionResult =
      some c2Result ∧
    (handleExecute c2State (Except.ok c2Result)).error = none := by
  decide

/-- C2 (amended): with an active job and a transport-successful execute
call, the returned result is always stored, and an error is surfaced if
and only if the result status is failed; the surfaced error is the
result error field when present and non-empty, else the stage default
string. -/
theorem c2_execute_stores_result_error_iff_failed (s : ControllerState)
    (r : ExecutionResult) (h : jsTruthyStr s.jobId = true) :
    (handleExecute s (Except.ok r)).executionResult = some r ∧
    (handleExecute s (Except.ok r)).error =
      (if r.status = ExecStatus.failed then
        some (jsOr r.error "Execution failed") else none) := by
  simp only [handleExecute, handleExecuteResolve, h, if_true]
  by_cases hst : r.status = ExecStatus.failed <;> simp [hst]

/-- C2 witness: the amended theorem applied at the concrete pending
result. -/
theorem c2_execute_stores_result_witness :
    (handleExecute c2State (Except.ok c2Result)).executionResult =
      some c2Result :=
  (c2_execute_stores_result_error_iff_failed c2State c2Result (by decide)).1

/-- C3 counterexample: with an active job and a previously proposed
plan, a failing plan call leaves the old plan in place, refuting the
claim that the proposed plan is cleared at call start and hence empty
after a failure. -/
theorem c3_counterexample_old_plan_persists :
    c3State.proposedSteps ≠ [] ∧
    jsTruthyStr c3State.jobId = true ∧
    (handleTransformRequest c3State (Except.error c3Err)).proposedSteps =
      [c3Step] := by
  decide

/-- C3 (amended): requestPlan does not clear the previously proposed
plan; when the gateway plan call fails the prior plan persists
unchanged, the error is the server detail when present and non-empty,
else the stage default, and jobId and the dataset profile are
untouched. -/
theorem c3_plan_failure_keeps_plan (s : ControllerState) (e : ApiError)
    (h : jsTruthyStr s.jobId = true) :
    (handleTransformRequest s (Except.error e)).proposedSteps =
      s.proposedSteps ∧
    (handleTransformRequest s (Except.error e)).error =
      some (jsOr e.detail "Planning failed") ∧
    (handleTransformRequest s (Except.error e)).jobId = s.jobId ∧
    (handleTransformRequest s (Except.error e)).datasetProfile =
      s.datasetProfile := by
  simp [handleTransformRequest, handleTransformRequestResolve, h]

/-- C3 witness: the amended theorem applied at the concrete state with a
stale plan. -/
theorem c3_plan_failure_keeps_plan_witness :
    (handleTransformRequest c3State (Except.error c3Err)).proposedSteps =
      c3State.proposedSteps :=
  (c3_plan_failure_keeps_plan c3State c3Err (by decide)).1

/-- C4 counterexample: with an active job and an empty proposed plan,
handleExecute still passes the job id to the gateway and mutates the
state, refuting the claim that confirmPlan proceeds only when a plan is
proposed. -/
theorem c4_counterexample_execute_without_plan :
    c4State.proposedSteps = [] ∧
    executeCallArg c4State = some "job-1" ∧
    handleExecute c4State (Except.ok c4Result) ≠ c4State := by
  decide

/-- C4 (amended): the only guard of handleExecute is job truthiness: the
gateway is called exactly when jobId is truthy, regardless of
proposedSteps, and when jobId is falsy the call is a complete no-op. -/
theorem c4_execute_guard_is_job_only (s : ControllerState) :
    (executeCallArg s = none ↔ jsTruthyStr s.jobId = false) ∧
    (jsTruthyStr s.jobId = false →
      ∀ resp, handleExecute s resp = s) := by
  constructor
  · by_cases h : jsTruthyStr s.jobId = true
    · simp only [executeCallArg, h, if_true]
      cases hj : s.jobId with
      | none => rw [hj] at h; exact absurd h (by decide)
      | some j => simp [h]
    · have h0 : jsTruthyStr s.jobId = false := by
        cases hb : jsTruthyStr s.jobId
        · rfl
        · exact absurd hb h
      simp [executeCallArg, h0]
  · intro h0 resp
    simp [handleExecute, h0]

/-- C4 witness: the amended theorem applied at the idle state, where the
execute call is a no-op. -/
theorem c4_execute_guard_witness :
    handleExecute initialState (Except.ok c4Result) = initialState :=
  (c4_execute_guard_is_job_only initialState).2 (by decide) (Except.ok c4Result)

/-- C5 counterexample: an original cell holding an explicit null against
a transformed row missing that key. Both sides stringify to the empty
string under the claimed null-coalescing comparison, so the claim
classifies the cell unchanged, but the code compares String(null) with
String(undefined) and classifies it changed. -/
theorem c5_counterexample_null_vs_missing :
    (0 : Nat) < c5Transformed.length ∧
    jsStrCoalesce (valueAt c5Original 0 "a") =
      jsStrCoalesce (valueAt c5Transformed 0 "a") ∧
    cellStatus c5Original c5Transformed 0 "a" = CellStatus.changed := by
  decide

/-- C5 (amended): for every row index i below the transformed length and
every column c, the cell is classified changed iff the original row at i
exists and the plain JS stringifications of the two cell values differ,
with no null or undefined coercion to the empty string (null renders as
the string null, a missing value as the string undefined); otherwise it
is unchanged. For two identical row sequences every in-range cell is
unchanged, and the classification of a cell depends only on the two
sequence lengths and the two values at that cell, so changing a single
cell value changes only that cell. -/
theorem c5_cell_classification :
    (∀ (original transformed : List Row) (i : Nat) (c : String),
        i < transformed.length →
        (cellStatus original transformed i c = CellStatus.changed ↔
          i < original.length ∧
            jsStr (valueAt original i c) ≠ jsStr (valueAt transformed i c)))
    ∧ (∀ (rows : List Row) (i : Nat) (c : String), i < rows.length →
        cellStatus rows rows i c = CellStatus.unchanged)
    ∧ (∀ (o o2 t t2 : List Row) (i : Nat) (c : String),
        o.length = o2.length → t.length = t2.length →
        valueAt o i c = valueAt o2 i c → valueAt t i c = valueAt t2 i c →
        cellStatus o t i c = cellStatus o2 t2 i c) := by
  refine ⟨?_, ?_, ?_⟩
  · intro original transformed i c hi
    cases ht : transformed[i]? with
    | none => exact absurd (List.getElem?_eq_none_iff.mp ht) (Nat.not_le.mpr hi)
    | some trow =>
      cases ho : original[i]? with
      | none =>
        have hlen : original.length ≤ i := List.getElem?_eq_none_iff.mp ho
        simp only [cellStatus, ht, ho]
        exact iff_of_false (by decide)
          (fun hc => absurd hc.1 (Nat.not_lt.mpr hlen))
      | some orow =>
        have hlt : i < original.length := by
          by_contra hc
          rw [List.getElem?_eq_none (Nat.le_of_not_lt hc)] at ho
          exact Option.noConfusion ho
        have hv1 : valueAt original i c = rowGet orow c := by
          simp [valueAt, ho]
        have hv2 : valueAt transformed i c = rowGet trow c := by
          simp [valueAt, ht]
        simp only [cellStatus, ht, ho, hv1, hv2]
        by_cases hne : jsStr (rowGet orow c) = jsStr (rowGet trow c)
        · simp [hne]
        · simp [hne, hlt]
  · intro rows i c hi
    cases ht : rows[i]? with
    | none => exact absurd (List.getElem?_eq_none_iff.mp ht) (Nat.not_le.mpr hi)
    | some r => simp [cellStatus, ht]
  · intro o o2 t t2 i c hlo hlt hvo hvt
    cases ht : t[i]? with
    | none =>
      have ht2 : t2[i]? = none :=
        List.getElem?_eq_none (hlt ▸ List.getElem?_eq_none_iff.mp ht)
      simp only [cellStatus, ht, ht2]
    | some trow =>
      obtain ⟨trow2, ht2⟩ : ∃ x, t2[i]? = some x := by
        cases h2 : t2[i]? with
        | none =>
          rw [List.getElem?_eq_none
            (hlt.symm ▸ List.getElem?_eq_none_iff.mp h2)] at ht
          exact Option.noConfusion ht
        | some x => exact ⟨x, rfl⟩
      have htv : rowGet trow c = rowGet trow2 c := by
        rw [valueAt, valueAt, ht, ht2] at hvt
        simpa using hvt
      cases ho : o[i]? with
      | none =>
        have ho2 : o2[i]? = none :=
          List.getElem?_eq_none (hlo ▸ List.getElem?_eq_none_iff.mp ho)
        simp only [cellStatus, ht, ht2, ho, ho2]
      | some orow =>
        obtain ⟨orow2, ho2⟩ : ∃ x, o2[i]? = some x := by
          cases h2 : o2[i]? with
          | none =>
            rw [List.getElem?_eq_none
              (hlo.symm ▸ List.getElem?_eq_none_iff.mp h2)] at ho
            exact Option.noConfusion ho
          | some x => exact ⟨x, rfl⟩
        have hov : rowGet orow c = rowGet orow2 c := by
          rw [valueAt, valueAt, ho, ho2] at hvo
          simpa using hvo
        simp only [cellStatus, ht, ht2, ho, ho2, htv, hov]

/-- C5 witness: the amended characterization applied at the concrete
null-versus-missing cell, which it classifies changed. -/
theorem c5_cell_classification_witness :
    cellStatus c5Original c5Transformed 0 "a" = CellStatus.changed :=
  (c5_cell_classification.1 c5Original c5Transformed 0 "a"
    (by decide)).mpr (by decide)

/-- C6: when the transformed preview is shorter than the original, every
cell of every original row at an index at or past the transformed length
is classified removedInTransformed, for every column. -/
theorem c6_extra_rows_removed (original transformed : List Row)
    (i : Nat) (c : String)
    (_hfewer : transformed.length < original.length)
    (hi : transformed.length ≤ i) :
    cellStatus original transformed i c = CellStatus.removedInTransformed := by
  simp [cellStatus, List.getElem?_eq_none hi]

/-- C6 witness: a two-row original against a one-row transformed, row
index 1 classified removed. -/
theorem c6_extra_rows_removed_witness :
    cellStatus [[("a", Value.str "x")], [("a", Value.str "y")]]
      [[("a", Value.str "x")]] 1 "a" = CellStatus.removedInTransformed :=
  c6_extra_rows_removed _ _ 1 "a" (by decide) (by decide)

/-- C7: reset from any controller state yields the initial idle snapshot
on every field the claim lists: jobId, datasetProfile, proposedSteps,
executionResult, error, uploadProgress and the working preview. -/
theorem c7_reset_yields_idle_snapshot (s : ControllerState) :
    (reset s).jobId = none ∧
    (reset s).datasetProfile = none ∧
    (reset s).proposedSteps = [] ∧
    (reset s).executionResult = none ∧
    (reset s).error = none ∧
    (reset s).uploadProgress = 0 ∧
    (reset s).currentData = [] := by
  simp [reset]

/-- C7 witness: reset applied at a fully populated state. -/
theorem c7_reset_witness :
    (reset c10State).jobId = none :=
  (c7_reset_yields_idle_snapshot c10State).1

/-- C8 counterexample: an upload failure hitting a controller that still
holds the job id of an earlier job, with a server detail that is present
but empty. The surfaced error is the generic message, not the supplied
detail, and jobId is not null afterwards. -/
theorem c8_counterexample_failed_upload_keeps_job :
    c8Err.detail = some "" ∧
    (handleUpload c8State (Except.error c8Err)).error ≠ c8Err.detail ∧
    (handleUpload c8State (Except.error c8Err)).jobId ≠ none := by
  decide

/-- C8 (amended): a failed upload surfaces the server detail when it is
present and non-empty, else the generic upload message, and leaves jobId
and the dataset profile exactly as they were: still null when no job
existed, but a pre-existing job id persists. -/
theorem c8_upload_failure_behaviour (s : ControllerState) (e : ApiError) :
    (handleUpload s (Except.error e)).error =
      some (jsOr e.detail "Upload failed") ∧
    (handleUpload s (Except.error e)).jobId = s.jobId ∧
    (handleUpload s (Except.error e)).datasetProfile = s.datasetProfile := by
  simp [handleUpload, handleUploadStart, handleUploadResolve]

/-- C8 witness: the amended theorem applied at the concrete state with a
leftover job id. -/
theorem c8_upload_failure_witness :
    (handleUpload c8State (Except.error c8Err)).jobId = c8State.jobId :=
  (c8_upload_failure_behaviour c8State c8Err).2.1

/-- C9: with no active job, both requestPlan and confirmPlan return
before calling the gateway and change nothing: the call argument is
none and the whole handler is the identity on the state, so no error is
set and every field is unchanged. -/
theorem c9_no_job_noop (s : ControllerState) (h : s.jobId = none) :
    planCallArg s = none ∧
    executeCallArg s = none ∧
    (∀ resp, handleTransformRequest s resp = s) ∧
    (∀ resp, handleExecute s resp = s) := by
  have h0 : jsTruthyStr s.jobId = false := by rw [h]; rfl
  refine ⟨?_, ?_, ?_, ?_⟩
  · simp [planCallArg, h0]
  · simp [executeCallArg, h0]
  · intro resp; simp [handleTransformRequest, h0]
  · intro resp; simp [handleExecute, h0]

/-- C9 witness: both handlers applied at the initial state. -/
theorem c9_no_job_noop_witness :
    handleExecute initialState (Except.error { detail := none }) =
      initialState :=
  (c9_no_job_noop initialState rfl).2.2.2 (Except.error { detail := none })

/-- C10: a successful upload replaces jobId, the dataset profile and the
working preview, but leaves proposedSteps and executionResult exactly as
they were, so stale artifacts of an earlier job survive the new upload. -/
theorem c10_upload_success_keeps_stale_artifacts (s : ControllerState)
    (p : DatasetProfile) :
    (handleUpload s (Except.ok p)).jobId = some p.job_id ∧
    (handleUpload s (Except.ok p)).datasetProfile = some p ∧
    (handleUpload s (Except.ok p)).currentData = p.preview ∧
    (handleUpload s (Except.ok p)).proposedSteps = s.proposedSteps ∧
    (handleUpload s (Except.ok p)).executionResult = s.executionResult := by
  simp [handleUpload, handleUploadStart, handleUploadResolve]

/-- C10 witness: the upload frame theorem applied at a state holding a
finished earlier job, whose plan and result survive. -/
theorem c10_upload_success_witness :
    (handleUpload c10State (Except.ok c10Profile)).executionResult =
      c10State.executionResult :=
  (c10_upload_success_keeps_stale_artifacts c10State c10Profile).2.2.2.2

end Fridata
